import Mathlib

/-!
Verification of the HireLink job-board backend (Express/Mongoose service).

The repository contains four near-identical variants of one service:
`src/index.js`, two variants concatenated in `src/api/index.js`
(called api1 and api2 below), and `src/unnamed/part_000`.

The development shallowly embeds the request handlers of those files:
timestamps are integers (milliseconds since epoch, as produced by JS
`Date.now()`), stores are lists of records, the external Supabase
verification call is an oracle parameter, and bcrypt comparison is an
oracle parameter. JavaScript-specific primitives used by the handlers
(`split(" ")`, `startsWith`, truthiness of possibly-missing strings)
are embedded at character level so that they both evaluate and
support proofs.
-/

namespace HireLink

/-- Timestamps in milliseconds since the epoch, as JS `Date.now()` yields. -/
abbrev Time := Int

/-- A document of the `Job` Mongoose model: title, description, link and
a `postedAt` timestamp that defaults to creation time. -/
structure Job where
  title : String
  description : String
  link : String
  postedAt : Time
deriving Repr, DecidableEq

/-- A document of the `User` Mongoose model (the `is_verified` flag is
never read by any handler and is omitted). The `password` field stores
the bcrypt hash, as saved by the registration handler. -/
structure User where
  name : String
  email : String
  department : String
  password : String
deriving Repr, DecidableEq

/-! JavaScript string primitives used by the middleware, embedded at
character level. -/

/-- Truthiness of `authHeader` in `if (!authHeader || ...)`: a missing
header (JS `undefined`) and the empty string are falsy. -/
def jsTruthy : Option String → Bool
  | none => false
  | some v => v ≠ ""

/-- Embedding of JS `s.startsWith(pre)`. -/
def jsStartsWith (s pre : String) : Bool :=
  pre.data.isPrefixOf s.data

/-- Character-level embedding of JS `String.prototype.split` with a
one-character separator: the list of (possibly empty) fields between
occurrences of the separator. -/
def splitChar (sep : Char) : List Char → List (List Char)
  | [] => [[]]
  | c :: cs =>
    let r := splitChar sep cs
    if c = sep then [] :: r
    else (c :: r.headD []) :: r.tail

/-- Embedding of JS `s.split(" ")`. -/
def jsSplitSpace (s : String) : List String :=
  (splitChar ' ' s.data).map (fun cs => String.mk cs)

/-! The AuthGate: the `verifyToken` middleware shared by all four
variants (src/index.js lines 47-79 and the same code in the others). -/

/-- What the middleware decides from the `Authorization` header alone:
reject with a response before any external call, or call the Supabase
verifier with an extracted credential. -/
inductive GateAction where
  | rejectNoCall (status : Nat) (message : String)
  | callVerifier (credential : String)
deriving Repr, DecidableEq

/-- Outcome of the `axios.get` call to the Supabase user endpoint: the
promise resolves with a status and a body, or it rejects (throws). -/
inductive VerifierOutcome where
  | resolved (status : Nat) (body : String)
  | threw
deriving Repr, DecidableEq

/-- Result of the middleware: a 4xx response was sent, or `next()` was
called with `req.user` set to the verifier body. -/
inductive AuthResult where
  | rejected (status : Nat) (message : String)
  | authorized (user : String)
deriving Repr, DecidableEq

/-- Header phase of `verifyToken`: reject 401 when the header is falsy or
does not start with the literal `"Bearer "`; otherwise extract the
credential as `authHeader.split(" ")[1]` (the field between the first
and second space; the `getD` default is unreachable because the header
contains a space). -/
def verifyTokenGate (authHeader : Option String) : GateAction :=
  if jsTruthy authHeader = false ∨ jsStartsWith (authHeader.getD "") "Bearer " = false then
    .rejectNoCall 401 "Token missing or invalid"
  else
    .callVerifier ((jsSplitSpace (authHeader.getD "")).getD 1 "")

/-- Verifier phase of `verifyToken`: a resolved response with status other
than 200 gives 401 "Invalid token"; a thrown error gives 401
"Invalid or expired token"; status 200 attaches the body and continues. -/
def handleVerifier : VerifierOutcome → AuthResult
  | .resolved status body =>
    if status ≠ 200 then .rejected 401 "Invalid token"
    else .authorized body
  | .threw => .rejected 401 "Invalid or expired token"

/-- Trace of one run of the middleware: whether the external Supabase
call was made, the credential sent to it, and the result. -/
structure GateTrace where
  externalCallMade : Bool
  credentialSent : Option String
  result : AuthResult
deriving Repr, DecidableEq

/-- The whole `verifyToken` middleware, with the external verifier as an
oracle from credential to outcome. -/
def verifyToken (verifier : String → VerifierOutcome) (authHeader : Option String) : GateTrace :=
  match verifyTokenGate authHeader with
  | .rejectNoCall s m => ⟨false, none, .rejected s m⟩
  | .callVerifier cred => ⟨true, some cred, handleVerifier (verifier cred)⟩

/-- Spec reading of the extracted credential, for comparison with the
code: the entire token substring of the header following the
seven-character scheme `"Bearer "`. -/
def specTokenSuffix (h : String) : String :=
  String.mk (h.data.drop 7)

/-! Facts about the character-level split, used for the credential
extraction theorems. -/

lemma splitChar_no_sep (sep : Char) (l : List Char) (h : ∀ c ∈ l, c ≠ sep) :
    splitChar sep l = [l] := by
  induction l with
  | nil => rfl
  | cons c cs ih =>
    have hc : c ≠ sep := h c (List.mem_cons_self c cs)
    have ihr := ih (fun d hd => h d (List.mem_cons_of_mem c hd))
    simp [splitChar, hc, ihr]

lemma splitChar_append_sep (sep : Char) (cs ds : List Char) (h : ∀ c ∈ cs, c ≠ sep) :
    splitChar sep (cs ++ sep :: ds) = cs :: splitChar sep ds := by
  induction cs with
  | nil => simp [splitChar]
  | cons c cs ih =>
    have hc : c ≠ sep := h c (List.mem_cons_self c cs)
    have ihr := ih (fun d hd => h d (List.mem_cons_of_mem c hd))
    simp [splitChar, hc, ihr]

lemma isPrefixOf_append (l₁ l₂ : List Char) : l₁.isPrefixOf (l₁ ++ l₂) = true := by
  induction l₁ with
  | nil => simp [List.isPrefixOf]
  | cons c cs ih => simp [List.isPrefixOf, ih]

/-- C1: whenever the Authorization header is absent or does not start
with the literal `"Bearer "`, `verifyToken` answers 401 with the
missing-or-malformed message and makes no external verification call. -/
theorem verifyToken_missing_or_malformed (verifier : String → VerifierOutcome)
    (authHeader : Option String)
    (h : authHeader = none ∨ ∀ v, authHeader = some v → jsStartsWith v "Bearer " = false) :
    (verifyToken verifier authHeader).result = .rejected 401 "Token missing or invalid" ∧
    (verifyToken verifier authHeader).externalCallMade = false := by
  rcases h with rfl | hv
  · exact ⟨rfl, rfl⟩
  · cases authHeader with
    | none => exact ⟨rfl, rfl⟩
    | some v =>
      have hsw : jsStartsWith v "Bearer " = false := hv v rfl
      simp [verifyToken, verifyTokenGate, hsw]

/-- Witness for C1 at the concrete header "Basic abc". -/
theorem verifyToken_missing_or_malformed_witness :
    ((some "Basic abc" : Option String) = none ∨
      ∀ v, (some "Basic abc" : Option String) = some v → jsStartsWith v "Bearer " = false) ∧
    ((verifyToken (fun _ => .threw) (some "Basic abc")).result =
        .rejected 401 "Token missing or invalid" ∧
      (verifyToken (fun _ => .threw) (some "Basic abc")).externalCallMade = false) := by
  refine ⟨Or.inr ?_, verifyToken_missing_or_malformed (fun _ => .threw) (some "Basic abc")
    (Or.inr ?_)⟩ <;>
  · intro v hv
    cases hv
    decide

/-- C7 counterexample: for the header "Bearer a b" the middleware sends
credential "a" to the verifier, while the entire substring following
the scheme is "a b". -/
theorem credential_not_entire_suffix :
    (verifyToken (fun _ => .threw) (some "Bearer a b")).credentialSent = some "a" ∧
    specTokenSuffix "Bearer a b" = "a b" ∧ ("a" : String) ≠ "a b" := by
  refine ⟨by decide, by decide, by decide⟩

/-- C7 amended: for a header of the form "Bearer " followed by a token
with no space character, the credential sent to the verifier is exactly
that token, which then coincides with the entire substring following
the scheme. -/
theorem credential_is_field_before_space (verifier : String → VerifierOutcome) (t : String)
    (h : ∀ c ∈ t.data, c ≠ ' ') :
    (verifyToken verifier (some ("Bearer " ++ t))).credentialSent = some t ∧
    specTokenSuffix ("Bearer " ++ t) = t := by
  have h1 : ("Bearer " : String).data = "Bearer".data ++ [' '] := by decide
  have hdata : ("Bearer " ++ t).data = "Bearer".data ++ ' ' :: t.data := by
    rw [String.data_append, h1, List.append_assoc]
    rfl
  have hsw : jsStartsWith ("Bearer " ++ t) "Bearer " = true := by
    unfold jsStartsWith
    rw [String.data_append]
    exact isPrefixOf_append _ _
  have htr : jsTruthy (some ("Bearer " ++ t)) = true := by
    simp only [jsTruthy, decide_eq_true_eq]
    intro e
    have hnil : ("Bearer " ++ t).data = [] := by rw [e]
    rw [hdata] at hnil
    simp at hnil
  have hsplit : (jsSplitSpace ("Bearer " ++ t)).getD 1 "" = t := by
    unfold jsSplitSpace
    rw [hdata, splitChar_append_sep _ _ _ (by decide), splitChar_no_sep _ _ h]
    rfl
  refine ⟨?_, ?_⟩
  · simp [verifyToken, verifyTokenGate, htr, hsw]
    simpa [List.getD] using hsplit
  · unfold specTokenSuffix
    rw [String.data_append]
    have h7 : ("Bearer " : String).data.length = 7 := by decide
    rw [← h7, List.drop_left]

/-- Witness for C7 amended at the concrete token "abc123". -/
theorem credential_is_field_before_space_witness :
    (∀ c ∈ ("abc123" : String).data, c ≠ ' ') ∧
    ((verifyToken (fun _ => .threw) (some ("Bearer " ++ "abc123"))).credentialSent =
        some "abc123" ∧
      specTokenSuffix ("Bearer " ++ "abc123") = "abc123") :=
  ⟨by decide, credential_is_field_before_space (fun _ => .threw) "abc123" (by decide)⟩

/-! The JobQuery component: the GET /all-jobs and GET /latest-jobs
handlers. The Mongo query and sort run inside the store; here the
filter and the descending sort are embedded directly, and the handler
receives the fetch outcome (`none` models a store failure caught by the
surrounding try/catch). -/

/-- Embedding of the Mongo query that selects jobs with `postedAt`
at least `cutoff` (the `$gte` comparison, inclusive). The relative
order of the stored records is preserved. -/
def findSince (store : List Job) (cutoff : Time) : List Job :=
  store.filter (fun j => cutoff ≤ j.postedAt)

/-- Insert a job into a list kept in descending `postedAt` order. -/
def insertByPostedAt (j : Job) : List Job → List Job
  | [] => [j]
  | k :: ks => if k.postedAt ≤ j.postedAt then j :: k :: ks else k :: insertByPostedAt j ks

/-- Embedding of the Mongo sort on `postedAt` descending (most recent
first), as requested by the `-1` sort key of the handlers. -/
def sortByPostedAtDesc : List Job → List Job
  | [] => []
  | j :: js => insertByPostedAt j (sortByPostedAtDesc js)

lemma mem_insertByPostedAt (a j : Job) (l : List Job) :
    a ∈ insertByPostedAt j l ↔ a = j ∨ a ∈ l := by
  induction l with
  | nil => simp [insertByPostedAt]
  | cons k ks ih =>
    by_cases hle : k.postedAt ≤ j.postedAt
    · simp [insertByPostedAt, hle]
    · simp [insertByPostedAt, hle, ih]
      tauto

lemma mem_sortByPostedAtDesc (a : Job) (l : List Job) :
    a ∈ sortByPostedAtDesc l ↔ a ∈ l := by
  induction l with
  | nil => simp [sortByPostedAtDesc]
  | cons j js ih => simp [sortByPostedAtDesc, mem_insertByPostedAt, ih]

lemma pairwise_insertByPostedAt (j : Job) (l : List Job)
    (h : l.Pairwise (fun a b => b.postedAt ≤ a.postedAt)) :
    (insertByPostedAt j l).Pairwise (fun a b => b.postedAt ≤ a.postedAt) := by
  induction l with
  | nil => simp [insertByPostedAt]
  | cons k ks ih =>
    rcases List.pairwise_cons.mp h with ⟨hk, hks⟩
    by_cases hle : k.postedAt ≤ j.postedAt
    · simp only [insertByPostedAt]
      rw [if_pos hle]
      refine List.pairwise_cons.mpr ⟨?_, h⟩
      intro b hb
      rcases List.mem_cons.mp hb with rfl | hb
      · exact hle
      · exact le_trans (hk b hb) hle
    · simp only [insertByPostedAt]
      rw [if_neg hle]
      refine List.pairwise_cons.mpr ⟨?_, ih hks⟩
      intro b hb
      rcases (mem_insertByPostedAt b j ks).mp hb with rfl | hb
      · exact le_of_lt (lt_of_not_le hle)
      · exact hk b hb

lemma pairwise_sortByPostedAtDesc (l : List Job) :
    (sortByPostedAtDesc l).Pairwise (fun a b => b.postedAt ≤ a.postedAt) := by
  induction l with
  | nil => simp [sortByPostedAtDesc]
  | cons j js ih => exact pairwise_insertByPostedAt j _ ih

/-- Response sent by a job-list handler: a JSON list of jobs on
success, or a status/message pair on failure. -/
inductive JobsResp where
  | jobList (status : Nat) (jobs : List Job)
  | failure (status : Nat) (message : String)
deriving Repr, DecidableEq

/-- Jobs carried by a job-list response (empty on a failure response). -/
def respJobs : JobsResp → List Job
  | .jobList _ js => js
  | .failure _ _ => []

/-- GET /latest-jobs of src/index.js (lines 154-162): fetch jobs with
`postedAt` within the last 24 hours, sorted descending; 200 on
success, 500 with a message when the store fetch fails. -/
def latestJobs_index (fetch : Option (List Job)) (now : Time) : JobsResp :=
  match fetch with
  | none => .failure 500 "Error fetching latest jobs"
  | some jobs => .jobList 200 (sortByPostedAtDesc (findSince jobs (now - 24 * 60 * 60 * 1000)))

/-- GET /latest-jobs of the first src/api/index.js variant (lines
149-157), identical code. -/
def latestJobs_api1 (fetch : Option (List Job)) (now : Time) : JobsResp :=
  match fetch with
  | none => .failure 500 "Error fetching latest jobs"
  | some jobs => .jobList 200 (sortByPostedAtDesc (findSince jobs (now - 24 * 60 * 60 * 1000)))

/-- GET /latest-jobs of the second src/api/index.js variant (lines
331-339), identical code. -/
def latestJobs_api2 (fetch : Option (List Job)) (now : Time) : JobsResp :=
  match fetch with
  | none => .failure 500 "Error fetching latest jobs"
  | some jobs => .jobList 200 (sortByPostedAtDesc (findSince jobs (now - 24 * 60 * 60 * 1000)))

/-- GET /latest-jobs of src/unnamed/part_000 (lines 154-162),
identical code. -/
def latestJobs_part000 (fetch : Option (List Job)) (now : Time) : JobsResp :=
  match fetch with
  | none => .failure 500 "Error fetching latest jobs"
  | some jobs => .jobList 200 (sortByPostedAtDesc (findSince jobs (now - 24 * 60 * 60 * 1000)))

/-- GET /all-jobs of src/index.js (lines 144-151): `Job.find()` with no
filter and no sort, answered in store-native order. -/
def allJobs_index (fetch : Option (List Job)) : JobsResp :=
  match fetch with
  | none => .failure 500 "Error fetching jobs"
  | some jobs => .jobList 200 jobs

/-- GET /all-jobs of the second src/api/index.js variant (lines
318-327): excludes jobs older than 30 days and sorts descending. -/
def allJobs_api2 (fetch : Option (List Job)) (now : Time) : JobsResp :=
  match fetch with
  | none => .failure 500 "Error fetching jobs"
  | some jobs =>
    .jobList 200 (sortByPostedAtDesc (findSince jobs (now - 30 * 24 * 60 * 60 * 1000)))

/-- C5: a job appears in the GET /latest-jobs result exactly when it is
stored and its `postedAt` is at least `now` minus 24 hours in
milliseconds; the lower bound is inclusive. -/
theorem latestJobs_window_membership (store : List Job) (now : Time) (j : Job) :
    j ∈ respJobs (latestJobs_index (some store) now) ↔
      j ∈ store ∧ now - 24 * 60 * 60 * 1000 ≤ j.postedAt := by
  simp [latestJobs_index, respJobs, mem_sortByPostedAtDesc, findSince]

/-- C6: in the GET /latest-jobs result, any posting appearing before
another has a `postedAt` at least as large (descending order). -/
theorem latestJobs_sorted_descending (store : List Job) (now : Time) (i j : Nat)
    (hi : i < (respJobs (latestJobs_index (some store) now)).length)
    (hj : j < (respJobs (latestJobs_index (some store) now)).length)
    (hij : i < j) :
    (respJobs (latestJobs_index (some store) now))[j].postedAt ≤
      (respJobs (latestJobs_index (some store) now))[i].postedAt := by
  have hp := pairwise_sortByPostedAtDesc (findSince store (now - 24 * 60 * 60 * 1000))
  exact List.pairwise_iff_getElem.mp hp i j hi hj hij

/-- Witness for C6 with two concrete postings out of order in the store. -/
theorem latestJobs_sorted_descending_witness :
    (0 : Nat) <
        (respJobs (latestJobs_index
          (some [⟨"t1", "d1", "l1", 10⟩, ⟨"t2", "d2", "l2", 20⟩]) 100)).length ∧
    (1 : Nat) <
        (respJobs (latestJobs_index
          (some [⟨"t1", "d1", "l1", 10⟩, ⟨"t2", "d2", "l2", 20⟩]) 100)).length ∧
    (0 : Nat) < 1 ∧
    (respJobs (latestJobs_index
        (some [⟨"t1", "d1", "l1", 10⟩, ⟨"t2", "d2", "l2", 20⟩]) 100))[1].postedAt ≤
      (respJobs (latestJobs_index
        (some [⟨"t1", "d1", "l1", 10⟩, ⟨"t2", "d2", "l2", 20⟩]) 100))[0].postedAt :=
  ⟨by decide, by decide, by decide,
    latestJobs_sorted_descending [⟨"t1", "d1", "l1", 10⟩, ⟨"t2", "d2", "l2", 20⟩] 100 0 1
      (by decide) (by decide) (by decide)⟩

/-- C10: the four GET /latest-jobs variants are extensionally equal: for
every fetch outcome and query time they produce the same response,
hence the same 24-hour inclusive filter, the same descending sort and
the same success and store-error mapping. -/
theorem latestJobs_variants_extensionally_equal (fetch : Option (List Job)) (now : Time) :
    latestJobs_index fetch now = latestJobs_api1 fetch now ∧
    latestJobs_api1 fetch now = latestJobs_api2 fetch now ∧
    latestJobs_api2 fetch now = latestJobs_part000 fetch now :=
  ⟨rfl, rfl, rfl⟩

/-- C3 counterexample: a stored posting 30 days and one millisecond old
is dropped by the GET /all-jobs handler of the second src/api/index.js
variant, so that variant does not return every stored posting. -/
theorem allJobs_api2_drops_old_posting :
    (⟨"t", "d", "l", 0⟩ : Job) ∈ [(⟨"t", "d", "l", 0⟩ : Job)] ∧
    respJobs (allJobs_api2 (some [⟨"t", "d", "l", 0⟩]) 2592000001) = [] := by
  refine ⟨by decide, by decide⟩

/-- C3 amended: the GET /all-jobs handler of src/index.js returns every
stored posting in store order with no time filter, while the second
src/api/index.js variant returns a posting exactly when its `postedAt`
is at least `now` minus 30 days, sorted descending. -/
theorem allJobs_variants_characterized (store : List Job) (now : Time) (j : Job) :
    allJobs_index (some store) = .jobList 200 store ∧
    (j ∈ respJobs (allJobs_api2 (some store) now) ↔
      j ∈ store ∧ now - 30 * 24 * 60 * 60 * 1000 ≤ j.postedAt) := by
  refine ⟨rfl, ?_⟩
  simp [allJobs_api2, respJobs, mem_sortByPostedAtDesc, findSince]

/-! The protected POST /add-job operation: verifyToken middleware
composed with the handler body, plus a small step function for
state-transition properties. -/

/-- Response sent by a handler of the service: a status/message pair, a
message with the saved job, or a JSON list of jobs. -/
inductive ServerResp where
  | msg (status : Nat) (message : String)
  | msgJob (status : Nat) (message : String) (job : Job)
  | jobList (status : Nat) (jobs : List Job)
deriving Repr, DecidableEq

/-- Status code of a response. -/
def ServerResp.statusOf : ServerResp → Nat
  | .msg s _ => s
  | .msgJob s _ _ => s
  | .jobList s _ => s

/-- Outcome of the POST /add-job pipeline: the resulting store, the
response, and whether the store was reached at all. -/
structure AddJobOutcome where
  store : List Job
  resp : ServerResp
  storeTouched : Bool
deriving Repr, DecidableEq

/-- POST /add-job handler body (src/index.js lines 127-141, identical
in the other variants): reject 400 when title, description or link is
missing or empty (JS falsiness), before any store interaction;
otherwise save a new job whose postedAt defaults to the current time
and answer 201, or 500 when the save fails. -/
def addJobHandler (title description link : Option String) (saveOk : Bool)
    (store : List Job) (now : Time) : AddJobOutcome :=
  if jsTruthy title = false ∨ jsTruthy description = false ∨ jsTruthy link = false then
    ⟨store, .msg 400 "Missing required fields", false⟩
  else if saveOk then
    ⟨store ++ [⟨title.getD "", description.getD "", link.getD "", now⟩],
      .msgJob 201 "Job added successfully!" ⟨title.getD "", description.getD "", link.getD "", now⟩,
      true⟩
  else
    ⟨store, .msg 500 "Error adding job", true⟩

/-- The whole POST /add-job request: the verifyToken middleware runs
first and the handler body runs only when the middleware called
next(). -/
def addJobRequest (verifier : String → VerifierOutcome) (authHeader : Option String)
    (title description link : Option String) (saveOk : Bool)
    (store : List Job) (now : Time) : AddJobOutcome :=
  match (verifyToken verifier authHeader).result with
  | .rejected s m => ⟨store, .msg s m, false⟩
  | .authorized _ => addJobHandler title description link saveOk store now

/-- Boolean test that the external verifier did not accept a token: the
call resolved with a status other than 200, or it threw. -/
def verifierRejects : VerifierOutcome → Bool
  | .resolved status _ => status ≠ 200
  | .threw => true

/-- C2: when the external verifier does not accept the token the
request carries, the POST /add-job response is 401 and the job store
is unchanged and untouched, so nothing was half-written. -/
theorem addJob_unaccepted_token_no_write (verifier : String → VerifierOutcome)
    (authHeader : String) (title description link : Option String) (saveOk : Bool)
    (store : List Job) (now : Time)
    (hrej : verifierRejects (verifier ((jsSplitSpace authHeader).getD 1 "")) = true) :
    (addJobRequest verifier (some authHeader) title description link saveOk store
        now).resp.statusOf = 401 ∧
    (addJobRequest verifier (some authHeader) title description link saveOk store
        now).store = store ∧
    (addJobRequest verifier (some authHeader) title description link saveOk store
        now).storeTouched = false := by
  unfold addJobRequest verifyToken verifyTokenGate
  by_cases hc : jsTruthy (some authHeader) = false ∨
      jsStartsWith ((some authHeader).getD "") "Bearer " = false
  · rw [if_pos hc]
    exact ⟨rfl, rfl, rfl⟩
  · rw [if_neg hc]
    have hrej2 : verifierRejects (verifier ((jsSplitSpace authHeader)[1]?.getD "")) = true := by
      simpa [List.getD] using hrej
    rcases hv : verifier ((jsSplitSpace authHeader)[1]?.getD "") with ⟨s, b⟩ | _
    · have hs : s ≠ 200 := by
        rw [hv] at hrej2
        simpa [verifierRejects] using hrej2
      simp [handleVerifier, hv, hs, ServerResp.statusOf]
    · simp [handleVerifier, hv, ServerResp.statusOf]

/-- Witness for C2: a verifier answering 401 on every credential, with
an otherwise valid request. -/
theorem addJob_unaccepted_token_no_write_witness :
    verifierRejects ((fun _ => VerifierOutcome.resolved 401 "expired")
        ((jsSplitSpace "Bearer tok").getD 1 "")) = true ∧
    ((addJobRequest (fun _ => VerifierOutcome.resolved 401 "expired") (some "Bearer tok")
        (some "t") (some "d") (some "l") true [] 0).resp.statusOf = 401 ∧
      (addJobRequest (fun _ => VerifierOutcome.resolved 401 "expired") (some "Bearer tok")
        (some "t") (some "d") (some "l") true [] 0).store = [] ∧
      (addJobRequest (fun _ => VerifierOutcome.resolved 401 "expired") (some "Bearer tok")
        (some "t") (some "d") (some "l") true [] 0).storeTouched = false) :=
  ⟨by decide, addJob_unaccepted_token_no_write (fun _ => VerifierOutcome.resolved 401 "expired")
    "Bearer tok" (some "t") (some "d") (some "l") true [] 0 (by decide)⟩

/-- C8: when title, description or link is missing or empty, the POST
/add-job handler answers 400 "Missing required fields", leaves the
store unchanged, and never reaches the store. -/
theorem addJob_missing_field_rejected (title description link : Option String) (saveOk : Bool)
    (store : List Job) (now : Time)
    (h : jsTruthy title = false ∨ jsTruthy description = false ∨ jsTruthy link = false) :
    addJobHandler title description link saveOk store now =
      ⟨store, .msg 400 "Missing required fields", false⟩ := by
  unfold addJobHandler
  rw [if_pos h]

/-- Witness for C8 at a request with an empty description. -/
theorem addJob_missing_field_rejected_witness :
    (jsTruthy (some "t") = false ∨ jsTruthy (some "") = false ∨
      jsTruthy (some "l") = false) ∧
    addJobHandler (some "t") (some "") (some "l") true [] 0 =
      ⟨[], .msg 400 "Missing required fields", false⟩ :=
  ⟨Or.inr (Or.inl (by decide)),
    addJob_missing_field_rejected (some "t") (some "") (some "l") true [] 0
      (Or.inr (Or.inl (by decide)))⟩

/-- Operations against a reachable store, for state-transition
properties: a POST /add-job body and the GET /latest-jobs query. -/
inductive Op where
  | addJob (title description link : Option String) (saveOk : Bool)
  | latest
deriving Repr, DecidableEq

/-- One server step: the store after the operation and the response,
with GET /latest-jobs answered by the src/index.js handler. -/
def execOp (store : List Job) (now : Time) : Op → List Job × ServerResp
  | .addJob title description link saveOk =>
    ((addJobHandler title description link saveOk store now).store,
      (addJobHandler title description link saveOk store now).resp)
  | .latest => (store, .jobList 200 (respJobs (latestJobs_index (some store) now)))

/-- C9: the GET /latest-jobs query writes nothing, so running it twice
in immediate succession with no intervening writes returns identical
ordered sequences. -/
theorem latestJobs_query_idempotent (store : List Job) (now : Time) :
    (execOp store now .latest).1 = store ∧
    (execOp (execOp store now .latest).1 now .latest).2 = (execOp store now .latest).2 :=
  ⟨rfl, rfl⟩

/-! The AccountService login handlers, for the credential scenarios. -/

/-- Response of the POST /login handler. -/
inductive LoginResp where
  | msg (status : Nat) (message : String)
  | msgUser (status : Nat) (message : String) (user : User)
deriving Repr, DecidableEq

/-- Embedding of Mongoose `User.findOne` on the email key: the first
stored user with that email (emails are unique in the schema). -/
def findOneByEmail (users : List User) (email : String) : Option User :=
  users.find? (fun u => u.email = email)

/-- POST /login of src/index.js (lines 106-124; the same code is in
src/unnamed/part_000 and the first src/api/index.js variant): 400 when
no user has the email, 400 "Invalid credentials" when bcrypt.compare
fails; otherwise the handler evaluates `jwt.sign`, but `jwt` is not
bound anywhere in the file (jsonwebtoken is never required), so this
step throws a ReferenceError at runtime and the surrounding catch
answers 500 "Error during login" -- the 200 branch is unreachable. -/
def login_index (compare : String → String → Bool) (users : List User)
    (email password : String) : LoginResp :=
  match findOneByEmail users email with
  | none => .msg 400 "User not found"
  | some user =>
    if compare password user.password = false then .msg 400 "Invalid credentials"
    else .msg 500 "Error during login"

/-- POST /login of the second src/api/index.js variant (lines 285-299):
no token is produced; a matching password answers 200 with the user. -/
def login_api2 (compare : String → String → Bool) (users : List User)
    (email password : String) : LoginResp :=
  match findOneByEmail users email with
  | none => .msg 400 "User not found"
  | some user =>
    if compare password user.password = false then .msg 400 "Invalid credentials"
    else .msgUser 200 "Login successful" user

/-- C4: at a stored account and a bcrypt oracle accepting only password
"pw" against the stored hash "H", the src/index.js login answers 400
"Invalid credentials" for a wrong password but 500 "Error during
login" for the correct one (the unbound jwt identifier throws inside
the try block), while the second src/api/index.js variant answers 200
with a success payload. -/
theorem login_index_correct_password_gives_500 :
    login_index (fun p hsh => p == "pw" && hsh == "H") [⟨"A", "a@x.com", "Eng", "H"⟩]
        "a@x.com" "wrong" = .msg 400 "Invalid credentials" ∧
    login_index (fun p hsh => p == "pw" && hsh == "H") [⟨"A", "a@x.com", "Eng", "H"⟩]
        "a@x.com" "pw" = .msg 500 "Error during login" ∧
    login_api2 (fun p hsh => p == "pw" && hsh == "H") [⟨"A", "a@x.com", "Eng", "H"⟩]
        "a@x.com" "pw" = .msgUser 200 "Login successful" ⟨"A", "a@x.com", "Eng", "H"⟩ := by
  refine ⟨by decide, by decide, by decide⟩

end HireLink
